import Mathlib

/-!
Verification development for the `agentsv2` disruption-workflow engine of the
runwayops backend (`backend/app/agentsv2/{state,tools,agents,workflow}.py` and
`backend/app/services/predictive_signals.py`).

Modelling conventions:
* Python floats are embedded as `ℚ`; every claim evaluated here is exact at the
  inputs involved (no tie-sensitive rounding is ever inspected by a claim).
* Python dicts with a fixed key schema are embedded as structures; a field read
  with `dict.get(k, default)` becomes an `Option` field read with `getD`.
* The reasoning backend (`_invoke_llm_json`) is modelled as an oracle value of
  the schema type the prompt requests, `Option`-valued: `none` models every
  failure mode (no provider, network error, unparsable or falsy response), in
  which case each agent substitutes its deterministic fallback, exactly as the
  source does.  Ill-typed (schema-violating) backend responses are outside this
  embedding; at engine level they are covered by the arbitrary-failure
  quantification used for the error-handling claim.
* `random.randint(10000, 30000)` in `finance_tool` is an explicit `ℤ` parameter.
* Wall-clock timestamps recorded in audit/decision entries are modelled by a
  constant `""`: no claim reads a timestamp value, only entry order and count.
* The `asyncio.gather` pairs (Risk ∥ Rebooking and Finance ∥ Crew) are
  sequentialised in either order, selected by two Booleans in the environment;
  both agents of a pair write disjoint state fields, so the two orders cover
  every claim-relevant observable of the concurrent execution.
-/

namespace RunwayOps

/-- Python truthiness-based `a or b` for optional strings with a string
fallback: `None` and `""` are falsy. -/
def pyOrStr (a : Option String) (b : String) : String :=
  match a with
  | some s => if s = "" then b else s
  | none => b

/-- Python truthiness-based `a or b` where both operands are optional
strings. -/
def pyOrOptStr (a b : Option String) : Option String :=
  match a with
  | some s => if s = "" then b else some s
  | none => b

/-- Python `x or y` on integer counts: `x` if nonzero, else `y`
(`aircraft_not_ready or mx_holds`). -/
def pyOrNat (a b : ℕ) : ℕ :=
  if a = 0 then b else a

/-- Substring test: `needle in hay` for Python strings. -/
def strContainsSub (hay needle : String) : Bool :=
  (List.range (hay.length + 1)).any (fun i => needle.isPrefixOf (hay.drop i))

/-- Models Python `round(x, 2)` as used by `SignalBreakdown.to_dict`.  Python
rounds binary floats half-to-even; the two differ only at exact half-cent
ties, which no claim evaluates. -/
def round2 (x : ℚ) : ℚ :=
  ((round (x * 100) : ℤ) : ℚ) / 100

/-- Digit grouping used by Python's `:,` format spec (`"12,345"`). -/
def commaGroup (s : String) : String :=
  let chunks := (s.toList.reverse.toChunks 3).map (fun c => String.mk c.reverse)
  String.intercalate "," chunks.reverse

/-- Renders a nonnegative-or-negative integer with thousands separators, as
Python's `f"{n:,}"` does. -/
def commaInt (n : ℤ) : String :=
  if n < 0 then "-" ++ commaGroup (toString n.natAbs) else commaGroup (toString n.natAbs)

/-- Renders Python's `:.2%` format spec (value × 100 with two decimals and a
percent sign).  Tie behaviour of binary floats is immaterial: no claim reads
these rendered strings. -/
def fmtPct2 (x : ℚ) : String :=
  let c : ℤ := round (x * 10000)
  let sign := if c < 0 then "-" else ""
  let ip := toString (c.natAbs / 100)
  let fp := c.natAbs % 100
  let fps := (if fp < 10 then "0" else "") ++ toString fp
  sign ++ ip ++ "." ++ fps ++ "%"

/-! ## Input payload model

The caller-supplied `flight_data` mapping, restricted to the keys the workflow
reads (`agents.py`, `predictive_signals.py`).  Missing keys are `none`. -/

/-- One entry of `input["alerts"]`; only `alert.get("message", "")` is read. -/
structure Alert where
  message : Option String := none
deriving DecidableEq, Repr

/-- One entry of `input["flights"]`, restricted to the keys read by the
predictive scorer and `RebookingAgent`.  `irregularOpsReason` models
`(flight.get("irregularOps", {}) or {}).get("reason", "")`. -/
structure Flight where
  id : Option String := none
  statusCategory : Option String := none
  route : Option String := none
  destination : Option String := none
  scheduledDeparture : Option String := none
  crewReady : Option Bool := none
  aircraftReady : Option Bool := none
  irregularOpsReason : Option String := none
deriving DecidableEq, Repr

/-- One entry of `input["crewPanels"]`. -/
structure CrewPanel where
  fatigueRisk : Option String := none
  readinessState : Option String := none
deriving DecidableEq, Repr

/-- One entry of `input["aircraftPanels"]`; `statusCategory` models
`plane.get("statusCategory")` (possibly `None`). -/
structure AircraftPanel where
  statusCategory : Option String := none
deriving DecidableEq, Repr

/-- `input["stats"]`, restricted to the keys read anywhere in the workflow. -/
structure Stats where
  weatherScore : Option ℚ := none
  aircraftScore : Option ℚ := none
  crewScore : Option ℚ := none
  totalFlights : Option ℤ := none
  delayed : Option ℤ := none
  critical : Option ℤ := none
  avgDelayMinutes : Option ℚ := none
  paxImpacted : Option ℤ := none
deriving DecidableEq, Repr

/-- The caller-supplied input payload.  The optional ground-truth
`disruption` record is an association list standing for a JSON object, so
Python truthiness (`if disruption:`) is emptiness of the list. -/
structure InputData where
  airport : Option String := none
  carrier : Option String := none
  stats : Option Stats := none
  flights : List Flight := []
  alerts : List Alert := []
  crewPanels : List CrewPanel := []
  aircraftPanels : List AircraftPanel := []
  disruption : Option (List (String × String)) := none
deriving DecidableEq, Repr

/-- Python truthiness of `input_data.get("disruption")`: present and
non-empty. -/
def truthyDisruption : Option (List (String × String)) → Bool
  | some l => !l.isEmpty
  | none => false

/-! ## `services/predictive_signals.py` -/

/-- `WEATHER_KEYWORDS` from `predictive_signals.py`. -/
def WEATHER_KEYWORDS : List String :=
  ["weather", "storm", "typhoon", "rain", "wx", "wind", "turbulence"]

/-- Internal `SignalBreakdown` dataclass. -/
structure SignalScore where
  score : ℚ
  evidence : String
  impact_count : ℕ
deriving DecidableEq, Repr

/-- `SignalBreakdown.to_dict()` output (score rounded to two decimals). -/
structure SigDict where
  score : ℚ
  evidence : String
  impact_count : ℕ
deriving DecidableEq, Repr

/-- `to_dict` of the internal breakdown. -/
def SignalScore.toDict (s : SignalScore) : SigDict :=
  { score := round2 s.score, evidence := s.evidence, impact_count := s.impact_count }

/-- `_clamp(value)` with the source defaults `minimum=0.0, maximum=0.98`. -/
def clamp (value : ℚ) (minimum : ℚ := 0) (maximum : ℚ := 98/100) : ℚ :=
  max minimum (min maximum value)

/-- One text matches when any weather keyword occurs in its lowercase form. -/
def hasWeatherKeyword (text : String) : Bool :=
  WEATHER_KEYWORDS.any (fun k => strContainsSub text.toLower k)

/-- `_keyword_hits(items)`: the number of matching items and the first three
matching items as samples. -/
def keywordHits (items : List String) : ℕ × List String :=
  let hits := items.filter hasWeatherKeyword
  (hits.length, hits.take 3)

/-- `_score_weather(data)`. -/
def scoreWeather (data : InputData) : SignalScore :=
  let alertRes := keywordHits (data.alerts.map (fun a => a.message.getD ""))
  let flightRes := keywordHits (data.flights.map (fun f => f.irregularOpsReason.getD ""))
  let alertHits := alertRes.1
  let flightHits := flightRes.1
  let raw : ℚ := 15/100 * alertHits + 1/10 * flightHits
  let avgDelay := ((data.stats.getD {}).avgDelayMinutes).getD 0
  let raw := raw + min (3/10) (avgDelay / 120)
  let joined := String.intercalate ", " alertRes.2
  let evidence :=
    if alertHits + flightHits = 0 then "Clear"
    else if joined = "" then "Multiple weather alerts" else joined
  { score := clamp raw, evidence := evidence, impact_count := alertHits + flightHits }

/-- `_score_crew(data)`. -/
def scoreCrew (data : InputData) : SignalScore :=
  let flights := data.flights
  let crewPanels := data.crewPanels
  let flightsNotReady := (flights.filter (fun f => !(f.crewReady.getD true))).length
  let fatigueHits := (crewPanels.filter (fun p => p.fatigueRisk == some "high")).length
  let standbyNeeded := (crewPanels.filter (fun p => p.readinessState == some "hold")).length
  let raw : ℚ := 2/10 * flightsNotReady + 1/10 * fatigueHits + 5/100 * standbyNeeded
  let totalCrews : ℕ := max 1 crewPanels.length
  let utilization : ℚ := 1 - (standbyNeeded : ℚ) / totalCrews
  let raw := raw + max 0 (1/4 - utilization * (1/4))
  let parts : List String :=
    (if flightsNotReady ≠ 0 then [toString flightsNotReady ++ " flights waiting on crew"] else []) ++
    (if fatigueHits ≠ 0 then [toString fatigueHits ++ " crews high fatigue"] else []) ++
    (if standbyNeeded ≠ 0 then [toString standbyNeeded ++ " in standby/hold"] else [])
  let joined := String.intercalate ", " parts
  let evidence := if joined = "" then "All crews ready" else joined
  { score := clamp raw, evidence := evidence, impact_count := flightsNotReady }

/-- `_score_aircraft(data)`. -/
def scoreAircraft (data : InputData) : SignalScore :=
  let flights := data.flights
  let aircraftPanels := data.aircraftPanels
  let aircraftNotReady := (flights.filter (fun f => !(f.aircraftReady.getD true))).length
  let mxHolds :=
    (aircraftPanels.filter (fun p => (p.statusCategory.getD "").toLower ≠ "normal")).length
  let raw : ℚ := 2/10 * aircraftNotReady + 15/100 * mxHolds
  let parts : List String :=
    (if aircraftNotReady ≠ 0 then [toString aircraftNotReady ++ " flights without cleared tails"] else []) ++
    (if mxHolds ≠ 0 then [toString mxHolds ++ " aircraft flagged in MX queue"] else [])
  let joined := String.intercalate ", " parts
  let evidence := if joined = "" then "All aircraft released" else joined
  { score := clamp raw, evidence := evidence,
    impact_count := pyOrNat aircraftNotReady mxHolds }

/-- The `metrics` sub-dict of the predictive result. -/
structure Metrics where
  total_flights : ℤ
  delayed_flights : ℤ
  critical_flights : ℤ
  avg_delay_minutes : ℚ
deriving DecidableEq, Repr

/-- One entry of the `drivers` list (`{"category": ..., **to_dict}`). -/
structure Driver where
  category : String
  score : ℚ
  evidence : String
  impact_count : ℕ
deriving DecidableEq, Repr

/-- The full dict returned by `compute_predictive_signals`. -/
structure PredictResult where
  disruption_detected : Bool
  risk_probability : ℚ
  reasoning : String
  metrics : Metrics
  signal_breakdown : List (String × SigDict)
  drivers : List Driver
deriving DecidableEq, Repr

/-- `compute_predictive_signals(data)`.  Note that the function reads only
`totalFlights`, `delayed`, `critical` and `avgDelayMinutes` from `stats`: the
readiness scores `weatherScore` / `aircraftScore` / `crewScore` are never
consulted. -/
def computePredictiveSignals (data : InputData) : PredictResult :=
  let stats := data.stats.getD {}
  let total : ℤ := max 1 (stats.totalFlights.getD 1)
  let delayedRatio : ℚ := (stats.delayed.getD 0 : ℚ) / (total : ℚ)
  let criticalRatio : ℚ := (stats.critical.getD 0 : ℚ) / (total : ℚ)
  let weather := scoreWeather data
  let crew := scoreCrew data
  let aircraft := scoreAircraft data
  let weighted : ℚ :=
    4/10 * weather.score + 3/10 * crew.score + 3/10 * aircraft.score +
    15/100 * delayedRatio + 25/100 * criticalRatio
  let riskProbability := clamp weighted
  let detected : Bool := decide (riskProbability ≥ 6/10) || decide (criticalRatio > 15/100)
  let reasoning :=
    "Weather: " ++ weather.evidence ++ ". " ++
    "Aircraft: " ++ aircraft.evidence ++ ". " ++
    "Crew: " ++ crew.evidence ++ "."
  { disruption_detected := detected
    risk_probability := riskProbability
    reasoning := reasoning
    metrics :=
      { total_flights := total
        delayed_flights := stats.delayed.getD 0
        critical_flights := stats.critical.getD 0
        avg_delay_minutes := stats.avgDelayMinutes.getD 0 }
    signal_breakdown :=
      [("weather", weather.toDict), ("aircraft", aircraft.toDict), ("crew", crew.toDict)]
    drivers :=
      [{ category := "Weather", score := (weather.toDict).score,
         evidence := weather.evidence, impact_count := weather.impact_count },
       { category := "Aircraft", score := (aircraft.toDict).score,
         evidence := aircraft.evidence, impact_count := aircraft.impact_count },
       { category := "Crew", score := (crew.toDict).score,
         evidence := crew.evidence, impact_count := crew.impact_count }] }

/-! ## `agentsv2/state.py` -/

/-- One `audit_log` entry appended by `log_reasoning`.  The heterogeneous
`input`/`output` snapshots are never inspected by any claim and are not
modelled; `timestamp` is the wall-clock string, modelled as the constant `""`
(no claim reads its value, only entry order and count). -/
structure AuditEntry where
  agent : String
  timestamp : String := ""
deriving DecidableEq, Repr

/-- One `decision_log` entry appended by `record_decision`.  The heterogeneous
`data` payload and the wall-clock `timestamp` are not claim-relevant and are
not modelled. -/
structure DecisionEntry where
  agent : String
  decision : String
  category : String
  scenarios : List String
deriving DecidableEq, Repr

/-- One `progress_updates` entry appended by `record_progress`. -/
structure ProgressEntry where
  agent : String
  status : String
  message : String
deriving DecidableEq, Repr

/-- The `risk_assessment` dict.  It is written wholesale by the Predictive
agent (either the full predictive-tool result or the two-key ground-truth
dict) and later merged into by the Risk agent via `dict.update`; `none` fields
model absent keys. -/
structure RiskAssessment where
  disruption_detected : Option Bool := none
  risk_probability : Option ℚ := none
  reasoning : Option String := none
  metrics : Option Metrics := none
  signal_breakdown : Option (List (String × SigDict)) := none
  drivers : Option (List Driver) := none
  likelihood : Option ℚ := none
  duration_minutes : Option ℤ := none
  pax_impact : Option String := none
  regulatory_risk : Option String := none
deriving DecidableEq, Repr

/-- A `plan` sub-dict of a what-if template (`description` plus actions). -/
structure ScenarioPlan where
  description : Option String := none
  actions : List String := []
deriving DecidableEq, Repr

/-- One `what_if_templates` entry as consumed by
`AggregatorAgent._render_scenarios` (`scenario`/`name` key, optional
`description`, `plan` or `details`). -/
structure Template where
  scenario : Option String := none
  name : Option String := none
  description : Option String := none
  plan : Option ScenarioPlan := none
  details : Option ScenarioPlan := none
deriving DecidableEq, Repr

/-- One rendered `simulation_results` entry. -/
structure RenderedScenario where
  scenario : String
  plan : ScenarioPlan
  summary : Option String
  agent_decisions : List DecisionEntry
deriving DecidableEq, Repr

/-- Opaque Amadeus search payload (`flight_options` / `hotel_options`); its
contents are copied into the rebooking plan verbatim and read by no claim. -/
structure AmadeusOptions where
  count : ℕ := 0
deriving DecidableEq, Repr

/-- The `rebooking_plan` dict produced by `rebooking_tool` (synthetic or
Amadeus-backed) and optionally refined by the reasoning backend.  The three
`Option` fields exist only on the Amadeus path. -/
structure RebookingPlan where
  flight_id : String
  strategy : String
  hotel_required : Bool
  vip_priority : Bool
  estimated_pax : ℤ
  vip_count : ℤ
  delay_minutes : ℤ
  actions : List String
  data_source : String
  reasoning : String
  flight_options : Option AmadeusOptions := none
  hotel_options : Option (Option AmadeusOptions) := none
  total_cost_estimate : Option ℚ := none
deriving DecidableEq, Repr

/-- The `finance_estimate` dict produced by `finance_tool` and optionally
refined by the reasoning backend. -/
structure FinanceEstimate where
  compensation_usd : ℤ
  hotel_meals_usd : ℤ
  operational_usd : ℤ
  total_usd : ℤ
  breakdown : List String
  reasoning : String
deriving DecidableEq, Repr

/-- The `crew_rotation` dict produced by `crew_scheduling_tool` and optionally
refined by the reasoning backend. -/
structure CrewRotation where
  crew_changes_needed : Bool
  backup_crew_required : ℤ
  crew_available : ℤ
  regulatory_issues : List String
  actions : List String
  reasoning : String
deriving DecidableEq, Repr

/-- The `final_plan` dict.  `none` fields model absent keys, so the fixed
monitoring plan, the aggregated plan and the error plan are all values of this
one type with different key sets.  `generated_at` models a present key whose
value may itself be `None`. -/
structure FinalPlan where
  disruption_detected : Option Bool := none
  recommended_action : Option String := none
  priority : Option String := none
  message : Option String := none
  risk_assessment : Option RiskAssessment := none
  signal_breakdown : Option (List (String × SigDict)) := none
  rebooking_plan : Option (Option RebookingPlan) := none
  finance_estimate : Option (Option FinanceEstimate) := none
  crew_rotation : Option (Option CrewRotation) := none
  confidence : Option String := none
  generated_at : Option (Option String) := none
  decision_count : Option ℕ := none
  error : Option String := none
deriving DecidableEq, Repr

/-- `DisruptionState` from `state.py`.  The agent-owned dicts that start as
`{}` and are later assigned wholesale are `Option`-valued (`none` = `{}`);
`risk_assessment` is a key-schema record because the Risk agent merges into it
with `dict.update`. -/
structure DisruptionState where
  input_data : InputData := {}
  disruption_detected : Bool := false
  risk_assessment : RiskAssessment := {}
  signal_breakdown : List (String × SigDict) := []
  rebooking_plan : Option RebookingPlan := none
  finance_estimate : Option FinanceEstimate := none
  crew_rotation : Option CrewRotation := none
  simulation_results : List RenderedScenario := []
  what_if_templates : List Template := []
  audit_log : List AuditEntry := []
  decision_log : List DecisionEntry := []
  final_plan : FinalPlan := {}
  progress_updates : List ProgressEntry := []
deriving DecidableEq, Repr

/-- `log_reasoning(state, agent_name, input_data, output)`: appends one audit
entry (snapshots and wall-clock value not modelled, see `AuditEntry`). -/
def logReasoning (state : DisruptionState) (agentName : String) : DisruptionState :=
  { state with audit_log := state.audit_log ++ [{ agent := agentName }] }

/-- `record_decision(state, agent_name, decision, category=..., scenarios=...,
data=...)`.  Every agent call site passes `category` and `scenarios`
explicitly; the `data` payload is not claim-relevant (see `DecisionEntry`). -/
def recordDecision (state : DisruptionState) (agentName decision category : String)
    (scenarios : List String) : DisruptionState :=
  { state with decision_log := state.decision_log ++
      [{ agent := agentName, decision := decision, category := category,
         scenarios := scenarios }] }

/-- `record_progress(state, agent_name, status, message)`.  The optional
progress callback is absent in the engine path modelled here (the workflow
constructs its state with `create_initial_state(flight_data)`). -/
def recordProgress (state : DisruptionState) (agentName status message : String) :
    DisruptionState :=
  { state with progress_updates := state.progress_updates ++
      [{ agent := agentName, status := status, message := message }] }

/-- `create_initial_state(flight_data)` (no progress callback). -/
def createInitialState (flightData : InputData) : DisruptionState :=
  { input_data := flightData }

/-! ## `agentsv2/tools.py` -/

/-- `predictive_signal_tool(airport, carrier, weather_score, aircraft_score,
crew_score)` as called by `PredictiveAgent.run` (no `payload` argument): it
assembles an input dict containing only the airport, carrier and the three
readiness scores and hands it to `compute_predictive_signals`. -/
def predictiveSignalTool (airport carrier : String)
    (weatherScore aircraftScore crewScore : ℚ) : PredictResult :=
  computePredictiveSignals
    { airport := some airport
      carrier := some carrier
      stats := some { weatherScore := some weatherScore
                      aircraftScore := some aircraftScore
                      crewScore := some crewScore } }

/-- The `recommended_plan` sub-dict of a comprehensive Amadeus result. -/
structure AmadeusRecommendedPlan where
  strategy : String
  actions : List String
deriving DecidableEq, Repr

/-- A successful result of `comprehensive_reaccommodation_tool`.  Its option
payloads are opaque to every claim. -/
structure AmadeusOut where
  recommended_plan : AmadeusRecommendedPlan
  needs_hotel : Bool := false
  flight_options : AmadeusOptions := {}
  hotel_options : Option AmadeusOptions := none
  total_cost_estimate : ℚ := 0
  reasoning : String := ""
deriving DecidableEq, Repr

/-- `rebooking_tool(...)`.  `amadeusConfigured` models
`AMADEUS_AVAILABLE and settings.amadeus_client_id and
settings.amadeus_client_secret`; `amadeusResult = none` models the Amadeus
call raising (the source then falls through to the synthetic branch). -/
def rebookingTool (flightId : String) (paxCount delayMinutes vipCount : ℤ)
    (origin destination : String) (departureDate : Option String)
    (amadeusConfigured : Bool) (amadeusResult : Option AmadeusOut) : RebookingPlan :=
  let amadeusMerged : Option RebookingPlan :=
    if amadeusConfigured ∧ departureDate.isSome then
      match amadeusResult with
      | some a => some
          { flight_id := flightId
            strategy := a.recommended_plan.strategy
            hotel_required := a.needs_hotel
            vip_priority := vipCount > 0
            estimated_pax := paxCount
            vip_count := vipCount
            delay_minutes := delayMinutes
            actions := a.recommended_plan.actions
            flight_options := some a.flight_options
            hotel_options := some a.hotel_options
            total_cost_estimate := some a.total_cost_estimate
            data_source := "amadeus"
            reasoning := a.reasoning }
      | none => none
    else none
  match amadeusMerged with
  | some r => r
  | none =>
    let strategyHotel : String × Bool :=
      if delayMinutes > 180 then ("next_day_alternate", true)
      else if delayMinutes > 60 then ("same_day_alternate", decide (delayMinutes > 180))
      else ("monitor_and_assess", false)
    let strategy := strategyHotel.1
    let hotelRequired := strategyHotel.2
    let actions : List String :=
      (if hotelRequired then
        ["Book hotels for " ++ toString paxCount ++ " passengers", "Arrange meal vouchers"]
       else []) ++
      (if vipCount > 0 then
        ["Prioritize " ++ toString vipCount ++ " VIP passengers for rebooking"]
       else []) ++
      ["Search alternative flights for " ++ toString paxCount ++ " passengers",
       "Notify passengers via SMS/email"]
    { flight_id := flightId
      strategy := strategy
      hotel_required := hotelRequired
      vip_priority := vipCount > 0
      estimated_pax := paxCount
      vip_count := vipCount
      delay_minutes := delayMinutes
      actions := actions
      data_source := "synthetic"
      reasoning :=
        "Based on " ++ toString delayMinutes ++ "min delay with " ++ toString paxCount ++
        " pax (including " ++ toString vipCount ++ " VIPs), recommend " ++ strategy ++
        " strategy" }

/-- `finance_tool(pax_count, delay_minutes, hotel_required, flight_distance)`.
`operationalUsd` is the explicit value of `random.randint(10000, 30000)`. -/
def financeTool (paxCount delayMinutes : ℤ) (hotelRequired : Bool)
    (flightDistance : String) (operationalUsd : ℤ) : FinanceEstimate :=
  let perPaxComp : ℤ :=
    if delayMinutes ≥ 180 then
      if flightDistance = "long" then 600
      else if flightDistance = "medium" then 400
      else 250
    else if delayMinutes ≥ 120 then 125
    else 0
  let compensationUsd := paxCount * perPaxComp
  let hotelMealsUsd : ℤ := if hotelRequired then paxCount * 150 else 0
  let totalUsd := compensationUsd + hotelMealsUsd + operationalUsd
  { compensation_usd := compensationUsd
    hotel_meals_usd := hotelMealsUsd
    operational_usd := operationalUsd
    total_usd := totalUsd
    breakdown :=
      ["Compensation: $" ++ commaInt compensationUsd ++ " (" ++ toString paxCount ++
         " pax × $" ++ toString perPaxComp ++ ")",
       "Hotel/Meals: $" ++ commaInt hotelMealsUsd,
       "Operational: $" ++ commaInt operationalUsd]
    reasoning := "Total estimated impact: $" ++ commaInt totalUsd }

/-- `crew_scheduling_tool(flight_count, delay_minutes, crew_available)`. -/
def crewSchedulingTool (flightCount delayMinutes crewAvailable : ℤ) : CrewRotation :=
  let crewChangesNeeded : Bool := delayMinutes > 120
  let backupCrewRequired : ℤ := if crewChangesNeeded then min flightCount crewAvailable else 0
  { crew_changes_needed := crewChangesNeeded
    backup_crew_required := backupCrewRequired
    crew_available := crewAvailable
    regulatory_issues :=
      if crewChangesNeeded then
        ["Crew duty time approaching limit", "Rest requirements must be maintained"]
      else []
    actions :=
      if crewChangesNeeded then
        ["Assign " ++ toString backupCrewRequired ++ " backup crew members",
         "Monitor crew duty times",
         "Ensure regulatory compliance with rest periods"]
      else ["Monitor crew duty times", "Keep backup crew on standby"]
    reasoning :=
      "Delay of " ++ toString delayMinutes ++ "min requires " ++
      (if crewChangesNeeded then "crew changes" else "monitoring only") }

/-! ## `agentsv2/agents.py`

Each reasoning-backed agent takes its `_invoke_llm_json` result as an explicit
`Option` argument of the schema type its prompt requests (see the modelling
conventions at the top of the file).  `Option` fields inside an LLM output
model keys that are absent or `null`: the source drops exactly the `None`
values when merging (`{k: v for k, v in llm.items() if v is not None}`), and
`dict.update` keeps the old value for absent keys. -/

/-- `PredictiveAgent.run(state)`.  On a truthy ground-truth `disruption`
record it writes the two-key risk dict, clears the breakdown and returns
directly after `log_reasoning` — the `record_decision` call below the tool
path is not reached.  Otherwise it runs the deterministic predictive tool. -/
def PredictiveAgent.run (state : DisruptionState) : DisruptionState :=
  let inputData := state.input_data
  let stats := inputData.stats.getD {}
  if truthyDisruption inputData.disruption then
    let disruptionType := ((inputData.disruption.getD []).lookup "type").getD "disruption"
    let state :=
      { state with
        disruption_detected := true
        risk_assessment :=
          { risk_probability := some 1
            reasoning := some ("Confirmed disruption: " ++ disruptionType) }
        signal_breakdown := [] }
    logReasoning state "PredictiveAgent"
  else
    let result := predictiveSignalTool (inputData.airport.getD "HKG")
      (inputData.carrier.getD "CX") (stats.weatherScore.getD (1/2))
      (stats.aircraftScore.getD (1/2)) (stats.crewScore.getD (1/2))
    let state :=
      { state with
        disruption_detected := result.disruption_detected
        risk_assessment :=
          { disruption_detected := some result.disruption_detected
            risk_probability := some result.risk_probability
            reasoning := some result.reasoning
            metrics := some result.metrics
            signal_breakdown := some result.signal_breakdown
            drivers := some result.drivers }
        signal_breakdown := result.signal_breakdown }
    let state := logReasoning state "PredictiveAgent"
    let scenarios :=
      if state.disruption_detected then ["delay_3hr", "crew_unavailable"] else ["global"]
    recordDecision state "PredictiveAgent" "Calculated predictive disruption risk"
      "prediction" scenarios

/-- The JSON shape the Orchestrator prompt requests (and its heuristic
fallback produces). -/
structure OrchestratorOut where
  requires_intervention : Bool
  severity : String
  main_plan : ScenarioPlan
  what_if_scenarios : List Template := []
  reasoning : String := ""
deriving DecidableEq, Repr

/-- `OrchestratorAgent._calculate_severity(risk_prob)`. -/
def OrchestratorAgent.calculateSeverity (riskProb : ℚ) : String :=
  if riskProb > 8/10 then "critical"
  else if riskProb > 6/10 then "high"
  else if riskProb > 4/10 then "medium"
  else "low"

/-- The two hand-authored what-if templates of
`OrchestratorAgent._fallback_plan`. -/
def OrchestratorAgent.fallbackScenarios : List Template :=
  [{ scenario := some "delay_3hr"
     plan := some
       { description := some "Extended delay requiring hotels"
         actions := ["Book hotels", "Arrange meals", "Issue EU261/HKCAD compensation"] } },
   { scenario := some "crew_unavailable"
     plan := some
       { description := some "Crew duty limit exceeded"
         actions := ["Assign backup crew", "Reschedule departures", "Notify rostering center"] } }]

/-- `OrchestratorAgent._fallback_plan(state, risk)`. -/
def OrchestratorAgent.fallbackPlan (state : DisruptionState) : OrchestratorOut :=
  { requires_intervention := state.disruption_detected
    severity :=
      OrchestratorAgent.calculateSeverity (state.risk_assessment.risk_probability.getD 0)
    main_plan :=
      { description := some "Coordinate multi-agent response to disruption"
        actions := ["Assess passenger impact", "Calculate financial implications",
                    "Review crew availability"] }
    what_if_scenarios := OrchestratorAgent.fallbackScenarios
    reasoning :=
      "Heuristic fallback with probability " ++
      fmtPct2 (state.risk_assessment.risk_probability.getD 0) }

/-- `OrchestratorAgent.run(state)`: LLM output or heuristic fallback; stores
the what-if templates and logs one audit and one decision entry. -/
def OrchestratorAgent.run (state : DisruptionState) (llm : Option OrchestratorOut) :
    DisruptionState :=
  let output := llm.getD (OrchestratorAgent.fallbackPlan state)
  let state := { state with what_if_templates := output.what_if_scenarios }
  let state := logReasoning state "OrchestratorAgent"
  recordDecision state "OrchestratorAgent" "Coordinated disruption response plan"
    "orchestration" ["delay_3hr", "crew_unavailable"]

/-- The JSON shape the Risk prompt requests (and its fallback produces);
merged into `risk_assessment` with `dict.update`.  `likelihood`,
`duration_minutes` and `pax_impact` are required: the source reads
`result['likelihood']`, `result['duration_minutes']` and
`result['pax_impact']` unconditionally in its log line right after the merge,
so a truthy backend response missing any of them raises `KeyError` — an
engine-level failure outside this typed oracle, covered by the
arbitrary-failure quantification of the error-handling claim.
`regulatory_risk` and `reasoning` are only ever merged, so they may be
absent. -/
structure RiskOut where
  likelihood : ℚ
  duration_minutes : ℤ
  pax_impact : String
  regulatory_risk : Option String := none
  reasoning : Option String := none
deriving DecidableEq, Repr

/-- `RiskAgent._estimate_duration(risk_data)`. -/
def RiskAgent.estimateDuration (riskData : RiskAssessment) : ℤ :=
  let riskProb := riskData.risk_probability.getD (1/2)
  if riskProb > 8/10 then 240
  else if riskProb > 6/10 then 180
  else 120

/-- `RiskAgent._assess_pax_impact(risk_data)`. -/
def RiskAgent.assessPaxImpact (riskData : RiskAssessment) : String :=
  let riskProb := riskData.risk_probability.getD (1/2)
  if riskProb > 7/10 then "high"
  else if riskProb > 5/10 then "medium"
  else "low"

/-- `RiskAgent._assess_regulatory_risk(risk_data)`. -/
def RiskAgent.assessRegulatoryRisk (riskData : RiskAssessment) : String :=
  if riskData.risk_probability.getD (1/2) > 7/10 then "EU261/HKCAD compensation required"
  else "Monitor for compensation thresholds"

/-- `state.risk_assessment.update(result)`: keys present in `result`
overwrite, absent keys keep the old value.  The three required keys are
always present in `result` (both on the backend path and on the fallback
path), so they always overwrite. -/
def RiskAssessment.update (ra : RiskAssessment) (o : RiskOut) : RiskAssessment :=
  { ra with
    likelihood := some o.likelihood
    duration_minutes := some o.duration_minutes
    pax_impact := some o.pax_impact
    regulatory_risk := o.regulatory_risk <|> ra.regulatory_risk
    reasoning := o.reasoning <|> ra.reasoning }

/-- `RiskAgent.run(state)`. -/
def RiskAgent.run (state : DisruptionState) (llm : Option RiskOut) : DisruptionState :=
  let riskData := state.risk_assessment
  let result :=
    match llm with
    | some o => o
    | none =>
      { likelihood := riskData.risk_probability.getD (3/4)
        duration_minutes := RiskAgent.estimateDuration riskData
        pax_impact := RiskAgent.assessPaxImpact riskData
        regulatory_risk := some (RiskAgent.assessRegulatoryRisk riskData)
        reasoning := some "Heuristic fallback risk assessment" }
  let state := { state with risk_assessment := state.risk_assessment.update result }
  let state := logReasoning state "RiskAgent"
  recordDecision state "RiskAgent" "Quantified disruption likelihood and impact"
    "risk" ["delay_3hr", "crew_unavailable"]

/-- Models the departure-date extraction in `RebookingAgent.run`:
`datetime.fromisoformat(sd.replace("Z", "+00:00")).strftime("%Y-%m-%d")`
inside `try/except` (failure leaves the date `None`).  A well-formed ISO
timestamp yields its ten-character date part; the stdlib parser's full
grammar and calendar validation are not re-implemented — no claim reads this
value (it only gates the externally-configured Amadeus path). -/
def isoDateOf (s : String) : Option String :=
  let t := s.replace "Z" "+00:00"
  let d := t.take 10
  let ok := d.length = 10 &&
    d.toList.enum.all (fun p =>
      if p.1 = 4 || p.1 = 7 then p.2 == '-' else p.2.isDigit)
  if ok then some d else none

/-- The JSON shape the Rebooking prompt requests back from the backend (the
same fields as the tool plan); non-`None` fields override the tool plan. -/
structure RebookingOut where
  strategy : Option String := none
  hotel_required : Option Bool := none
  vip_priority : Option Bool := none
  estimated_pax : Option ℤ := none
  vip_count : Option ℤ := none
  delay_minutes : Option ℤ := none
  actions : Option (List String) := none
  reasoning : Option String := none
deriving DecidableEq, Repr

/-- `result.update({k: v for k, v in llm_plan.items() if v is not None})` for
the rebooking plan. -/
def RebookingPlan.update (r : RebookingPlan) (o : RebookingOut) : RebookingPlan :=
  { r with
    strategy := o.strategy.getD r.strategy
    hotel_required := o.hotel_required.getD r.hotel_required
    vip_priority := o.vip_priority.getD r.vip_priority
    estimated_pax := o.estimated_pax.getD r.estimated_pax
    vip_count := o.vip_count.getD r.vip_count
    delay_minutes := o.delay_minutes.getD r.delay_minutes
    actions := o.actions.getD r.actions
    reasoning := o.reasoning.getD r.reasoning }

/-- `RebookingAgent.run(state)`.  `vip_count` models
`int(pax_count * 0.1)` as truncating division by ten (float-noise ties are
immaterial: no claim reads the VIP fields). -/
def RebookingAgent.run (state : DisruptionState) (amadeusConfigured : Bool)
    (amadeusResult : Option AmadeusOut) (llm : Option RebookingOut) : DisruptionState :=
  let inputData := state.input_data
  let flights := inputData.flights
  let risk := state.risk_assessment
  let criticalFlights := flights.filter (fun f => f.statusCategory == some "critical")
  let paxCount := ((inputData.stats.getD {}).paxImpacted).getD 200
  let delayMinutes := risk.duration_minutes.getD 120
  let origin := inputData.airport.getD "HKG"
  let destination :=
    match criticalFlights.head? with
    | some firstFlight =>
      match firstFlight.route with
      | some r => ((r.splitOn "-").getLastD "").trim
      | none => firstFlight.destination.getD "LAX"
    | none => "LAX"
  let departureDate :=
    match criticalFlights.head? with
    | some firstFlight =>
      match firstFlight.scheduledDeparture with
      | some sd => isoDateOf sd
      | none => none
    | none => none
  let flightId :=
    match criticalFlights.head? with
    | some f => f.id.getD "CX888"
    | none => "UNKNOWN"
  let toolPlan := rebookingTool flightId paxCount delayMinutes (paxCount.tdiv 10)
    origin destination departureDate amadeusConfigured amadeusResult
  let result :=
    match llm with
    | some o => toolPlan.update o
    | none => toolPlan
  let state := { state with rebooking_plan := some result }
  let state := logReasoning state "RebookingAgent"
  recordDecision state "RebookingAgent" "Prepared passenger re-accommodation plan"
    "rebooking" ["delay_3hr"]

/-- The JSON shape the Finance prompt requests back from the backend;
non-`None` fields override the tool estimate. -/
structure FinanceOut where
  compensation_usd : Option ℤ := none
  hotel_meals_usd : Option ℤ := none
  operational_usd : Option ℤ := none
  total_usd : Option ℤ := none
  breakdown : Option (List String) := none
  reasoning : Option String := none
deriving DecidableEq, Repr

/-- `result.update({k: v for k, v in llm_estimate.items() if v is not None})`
for the finance estimate. -/
def FinanceEstimate.update (e : FinanceEstimate) (o : FinanceOut) : FinanceEstimate :=
  { compensation_usd := o.compensation_usd.getD e.compensation_usd
    hotel_meals_usd := o.hotel_meals_usd.getD e.hotel_meals_usd
    operational_usd := o.operational_usd.getD e.operational_usd
    total_usd := o.total_usd.getD e.total_usd
    breakdown := o.breakdown.getD e.breakdown
    reasoning := o.reasoning.getD e.reasoning }

/-- The three inputs `FinanceAgent.run` reads from state. -/
def FinanceAgent.paxCount (state : DisruptionState) : ℤ :=
  match state.rebooking_plan with
  | some r => r.estimated_pax
  | none => 200

/-- `risk.get("duration_minutes", 120)` as read by `FinanceAgent.run`. -/
def FinanceAgent.delayMinutes (state : DisruptionState) : ℤ :=
  state.risk_assessment.duration_minutes.getD 120

/-- `rebooking.get("hotel_required", False)` as read by `FinanceAgent.run`. -/
def FinanceAgent.hotelRequired (state : DisruptionState) : Bool :=
  match state.rebooking_plan with
  | some r => r.hotel_required
  | none => false

/-- The deterministic tool estimate computed inside `FinanceAgent.run`: the
finance tool is invoked with `flight_distance="medium"`, a literal at the
call site. -/
def FinanceAgent.toolEstimate (state : DisruptionState) (operationalUsd : ℤ) :
    FinanceEstimate :=
  financeTool (FinanceAgent.paxCount state) (FinanceAgent.delayMinutes state)
    (FinanceAgent.hotelRequired state) "medium" operationalUsd

/-- `FinanceAgent.run(state)`. -/
def FinanceAgent.run (state : DisruptionState) (operationalUsd : ℤ)
    (llm : Option FinanceOut) : DisruptionState :=
  let toolEstimate := FinanceAgent.toolEstimate state operationalUsd
  let result :=
    match llm with
    | some o => toolEstimate.update o
    | none => toolEstimate
  let state := { state with finance_estimate := some result }
  let state := logReasoning state "FinanceAgent"
  recordDecision state "FinanceAgent" "Calculated total financial impact"
    "finance" ["delay_3hr", "crew_unavailable"]

/-- The JSON shape the Crew prompt requests back from the backend;
non-`None` fields override the tool plan. -/
structure CrewOut where
  crew_changes_needed : Option Bool := none
  backup_crew_required : Option ℤ := none
  crew_available : Option ℤ := none
  regulatory_issues : Option (List String) := none
  actions : Option (List String) := none
  reasoning : Option String := none
deriving DecidableEq, Repr

/-- `result.update({k: v for k, v in llm_plan.items() if v is not None})` for
the crew plan. -/
def CrewRotation.update (c : CrewRotation) (o : CrewOut) : CrewRotation :=
  { crew_changes_needed := o.crew_changes_needed.getD c.crew_changes_needed
    backup_crew_required := o.backup_crew_required.getD c.backup_crew_required
    crew_available := o.crew_available.getD c.crew_available
    regulatory_issues := o.regulatory_issues.getD c.regulatory_issues
    actions := o.actions.getD c.actions
    reasoning := o.reasoning.getD c.reasoning }

/-- `CrewAgent.run(state)`: crew tool on the flight count and risk duration
with the fixed pool size 10, then optional backend refinement. -/
def CrewAgent.run (state : DisruptionState) (llm : Option CrewOut) : DisruptionState :=
  let flightCount : ℤ := state.input_data.flights.length
  let delayMinutes := state.risk_assessment.duration_minutes.getD 120
  let toolPlan := crewSchedulingTool flightCount delayMinutes 10
  let result :=
    match llm with
    | some o => toolPlan.update o
    | none => toolPlan
  let state := { state with crew_rotation := some result }
  let state := logReasoning state "CrewAgent"
  recordDecision state "CrewAgent" "Issued crew rotation guidance"
    "crew" ["crew_unavailable"]

/-- `scenario_key = template.get("scenario") or template.get("name") or
"unknown"` (Python `or`, so empty strings also fall through). -/
def scenarioKeyOf (t : Template) : String :=
  pyOrStr t.scenario (pyOrStr t.name "unknown")

/-- `AggregatorAgent._default_templates(state)`. -/
def AggregatorAgent.defaultTemplates : List Template :=
  [{ scenario := some "delay_3hr"
     description := some "Extended delay beyond three hours"
     plan := some
       { description := some "Issue EU261/HKCAD support"
         actions := ["Deploy hotel vouchers", "Send proactive comms",
                     "Coordinate with finance for extra budget"] } },
   { scenario := some "crew_unavailable"
     description := some "Relief crew cannot report in time"
     plan := some
       { description := some "Trigger crew contingency roster"
         actions := ["Activate reserve crew", "Re-sequence departures",
                     "Notify rostering control"] } }]

/-- `AggregatorAgent._render_scenarios(state)`: for each template (or the two
defaults when `what_if_templates` is empty), attach every decision whose
scenario tags contain the template's key or the `"global"` sentinel. -/
def AggregatorAgent.renderScenarios (state : DisruptionState) : List RenderedScenario :=
  let templates :=
    if state.what_if_templates.isEmpty then AggregatorAgent.defaultTemplates
    else state.what_if_templates
  templates.map (fun template =>
    let scenarioKey := scenarioKeyOf template
    let plan := template.plan.getD (template.details.getD {})
    let relevant := state.decision_log.filter (fun decision =>
      decision.scenarios.contains "global" || decision.scenarios.contains scenarioKey)
    { scenario := scenarioKey
      plan := plan
      summary := pyOrOptStr template.description plan.description
      agent_decisions := relevant })

/-- `AggregatorAgent.run(state)`: composes `final_plan`, renders
`simulation_results`, then logs its own audit and decision entries (so the
`confidence`/`decision_count` fields and the rendered scenarios see the log
state *before* the aggregator's own entries, as in the source). -/
def AggregatorAgent.run (state : DisruptionState) : DisruptionState :=
  let riskLikelihood := state.risk_assessment.likelihood.getD 0
  let finalPlan : FinalPlan :=
    { disruption_detected := some state.disruption_detected
      risk_assessment := some state.risk_assessment
      signal_breakdown := some state.signal_breakdown
      rebooking_plan := some state.rebooking_plan
      finance_estimate := some state.finance_estimate
      crew_rotation := some state.crew_rotation
      recommended_action := some (if state.disruption_detected then "PROCEED" else "MONITOR")
      confidence := some (if state.audit_log.length > 5 then "high" else "medium")
      generated_at := some ((state.audit_log.getLast?).map (fun e => e.timestamp))
      decision_count := some state.decision_log.length
      priority := some
        (if riskLikelihood > 8/10 then "critical"
         else if riskLikelihood > 6/10 then "high"
         else "medium") }
  let state := { state with simulation_results := AggregatorAgent.renderScenarios state }
  let state := { state with final_plan := finalPlan }
  let state := logReasoning state "AggregatorAgent"
  recordDecision state "AggregatorAgent" "Compiled final action plan"
    "aggregation" ["delay_3hr", "crew_unavailable"]

/-! ## `agentsv2/workflow.py` -/

/-- The dictionary returned by `DisruptionWorkflowADK.run`.  `Option`-valued
fields model keys that are absent from the error envelope (which carries only
`error`, `disruption_detected`, `audit_log` and `final_plan`). -/
structure WorkflowOutput where
  error : Option String := none
  final_plan : FinalPlan
  audit_log : List AuditEntry
  disruption_detected : Bool
  risk_assessment : Option RiskAssessment := none
  signal_breakdown : Option (List (String × SigDict)) := none
  rebooking_plan : Option (Option RebookingPlan) := none
  finance_estimate : Option (Option FinanceEstimate) := none
  crew_rotation : Option (Option CrewRotation) := none
  simulation_results : Option (List RenderedScenario) := none
  decision_log : Option (List DecisionEntry) := none
  progress_updates : Option (List ProgressEntry) := none
deriving DecidableEq, Repr

/-- `DisruptionWorkflowADK._format_output(state)`. -/
def formatOutput (state : DisruptionState) : WorkflowOutput :=
  { final_plan := state.final_plan
    audit_log := state.audit_log
    disruption_detected := state.disruption_detected
    risk_assessment := some state.risk_assessment
    signal_breakdown := some state.signal_breakdown
    rebooking_plan := some state.rebooking_plan
    finance_estimate := some state.finance_estimate
    crew_rotation := some state.crew_rotation
    simulation_results := some state.simulation_results
    decision_log := some state.decision_log
    progress_updates := some state.progress_updates }

/-- The fixed terminal plan written when no disruption is detected. -/
def monitorPlan : FinalPlan :=
  { disruption_detected := some false
    recommended_action := some "MONITOR"
    priority := some "low"
    message := some "No action required" }

/-- The envelope built in the `except` block of `DisruptionWorkflowADK.run`:
the stringified exception, whatever `disruption_detected` and `audit_log` the
state variable held when the exception surfaced, and the fixed error
`final_plan`.  No other output key is present. -/
def errorEnvelope (message : String) (state : DisruptionState) : WorkflowOutput :=
  { error := some message
    disruption_detected := state.disruption_detected
    audit_log := state.audit_log
    final_plan := { error := some "Workflow execution failed" } }

/-- One stage of the workflow as the engine sees it: a state transformer that
may instead surface an exception.  The error value carries the stringified
exception together with the state the engine's `state` variable refers to at
that moment (in the source both are one mutable object, so a partially
executed agent may already have mutated it). -/
def AgentStep : Type :=
  DisruptionState → Except (String × DisruptionState) DisruptionState

/-- The seven stage behaviours `DisruptionWorkflowADK.run` drives. -/
structure Behaviors where
  predictive : AgentStep
  orchestrator : AgentStep
  risk : AgentStep
  rebooking : AgentStep
  finance : AgentStep
  crew : AgentStep
  aggregator : AgentStep

/-- `DisruptionWorkflowADK.run(flight_data)`, parameterised by the seven stage
behaviours and by the interleaving order of each `asyncio.gather` pair
(`riskFirst`, `financeFirst`; see the modelling conventions).  The single
`try/except` of the source is the match structure: the first failing stage
short-circuits into `errorEnvelope`. -/
def runCatch (b : Behaviors) (riskFirst financeFirst : Bool)
    (flightData : InputData) : WorkflowOutput :=
  let state := createInitialState flightData
  let state := recordProgress state "Workflow" "started" "Starting disruption analysis..."
  let state := recordProgress state "PredictiveAgent" "started" "Analyzing disruption signals..."
  match b.predictive state with
  | .error (m, sf) => errorEnvelope m sf
  | .ok state =>
  let state := recordProgress state "PredictiveAgent" "complete" "Disruption analysis complete"
  if !state.disruption_detected then
    let state := recordProgress state "Workflow" "complete"
      "No disruption detected - monitoring only"
    formatOutput { state with final_plan := monitorPlan }
  else
  let state := recordProgress state "OrchestratorAgent" "started"
    "Coordinating response strategy..."
  match b.orchestrator state with
  | .error (m, sf) => errorEnvelope m sf
  | .ok state =>
  let state := recordProgress state "OrchestratorAgent" "complete" "Response plan created"
  let state := recordProgress state "SubAgents" "started" "Running impact assessment agents..."
  let state := recordProgress state "RiskAgent" "started" "Assessing risk and impact..."
  let state := recordProgress state "RebookingAgent" "started"
    "Planning passenger re-accommodation..."
  let phase1 : Except (String × DisruptionState) DisruptionState :=
    if riskFirst then
      match b.risk state with
      | .error e => .error e
      | .ok s1 => b.rebooking s1
    else
      match b.rebooking state with
      | .error e => .error e
      | .ok s1 => b.risk s1
  match phase1 with
  | .error (m, sf) => errorEnvelope m sf
  | .ok state =>
  let state := recordProgress state "RiskAgent" "complete" "Risk assessment complete"
  let state := recordProgress state "RebookingAgent" "complete" "Rebooking plan ready"
  let state := recordProgress state "FinanceAgent" "started" "Calculating financial impact..."
  let state := recordProgress state "CrewAgent" "started" "Managing crew schedules..."
  let phase2 : Except (String × DisruptionState) DisruptionState :=
    if financeFirst then
      match b.finance state with
      | .error e => .error e
      | .ok s1 => b.crew s1
    else
      match b.crew state with
      | .error e => .error e
      | .ok s1 => b.finance s1
  match phase2 with
  | .error (m, sf) => errorEnvelope m sf
  | .ok state =>
  let state := recordProgress state "FinanceAgent" "complete" "Cost estimate complete"
  let state := recordProgress state "CrewAgent" "complete" "Crew plan ready"
  let state := recordProgress state "AggregatorAgent" "started" "Synthesizing final plan..."
  match b.aggregator state with
  | .error (m, sf) => errorEnvelope m sf
  | .ok state =>
  let state := recordProgress state "AggregatorAgent" "complete" "Final plan ready"
  let state := recordProgress state "Workflow" "complete" "Analysis complete"
  formatOutput state

/-- The external environment of one workflow execution: the reasoning-backend
responses of the five LLM-backed agents, the Amadeus configuration and call
result, the drawn operational overhead, and the interleaving order of each
parallel phase. -/
structure Env where
  orchestratorLLM : Option OrchestratorOut := none
  riskLLM : Option RiskOut := none
  rebookingLLM : Option RebookingOut := none
  financeLLM : Option FinanceOut := none
  crewLLM : Option CrewOut := none
  amadeusConfigured : Bool := false
  amadeusResult : Option AmadeusOut := none
  operationalUsd : ℤ := 10000
  riskFirst : Bool := true
  financeFirst : Bool := true

/-- The seven concrete agents of `agents.py`, none of which raises in this
embedding (well-typed oracle responses; see the conventions at the top). -/
def concreteBehaviors (env : Env) : Behaviors :=
  { predictive := fun s => .ok (PredictiveAgent.run s)
    orchestrator := fun s => .ok (OrchestratorAgent.run s env.orchestratorLLM)
    risk := fun s => .ok (RiskAgent.run s env.riskLLM)
    rebooking := fun s => .ok
      (RebookingAgent.run s env.amadeusConfigured env.amadeusResult env.rebookingLLM)
    finance := fun s => .ok (FinanceAgent.run s env.operationalUsd env.financeLLM)
    crew := fun s => .ok (CrewAgent.run s env.crewLLM)
    aggregator := fun s => .ok (AggregatorAgent.run s) }

/-- `DisruptionWorkflowADK.run` with the concrete agents. -/
def runWorkflow (env : Env) (flightData : InputData) : WorkflowOutput :=
  runCatch (concreteBehaviors env) env.riskFirst env.financeFirst flightData

/-- The disruption verdict the Predictive agent reaches on a given input
payload (it depends on nothing else in the state). -/
def predDetect (input : InputData) : Bool :=
  if truthyDisruption input.disruption then true
  else
    let stats := input.stats.getD {}
    (predictiveSignalTool (input.airport.getD "HKG") (input.carrier.getD "CX")
      (stats.weatherScore.getD (1/2)) (stats.aircraftScore.getD (1/2))
      (stats.crewScore.getD (1/2))).disruption_detected

/-! ## Structural lemmas about the agents and the engine -/

theorem recordProgress_audit (s : DisruptionState) (a b c : String) :
    (recordProgress s a b c).audit_log = s.audit_log := rfl

theorem recordProgress_input (s : DisruptionState) (a b c : String) :
    (recordProgress s a b c).input_data = s.input_data := rfl

theorem recordProgress_detected (s : DisruptionState) (a b c : String) :
    (recordProgress s a b c).disruption_detected = s.disruption_detected := rfl

theorem recordProgress_final (s : DisruptionState) (a b c : String) :
    (recordProgress s a b c).final_plan = s.final_plan := rfl

theorem recordProgress_rebooking (s : DisruptionState) (a b c : String) :
    (recordProgress s a b c).rebooking_plan = s.rebooking_plan := rfl

theorem recordProgress_finance (s : DisruptionState) (a b c : String) :
    (recordProgress s a b c).finance_estimate = s.finance_estimate := rfl

theorem recordProgress_crew (s : DisruptionState) (a b c : String) :
    (recordProgress s a b c).crew_rotation = s.crew_rotation := rfl

theorem recordProgress_sims (s : DisruptionState) (a b c : String) :
    (recordProgress s a b c).simulation_results = s.simulation_results := rfl

/-- The Predictive agent appends exactly one audit entry on both of its
paths. -/
theorem predictive_audit (s : DisruptionState) :
    (PredictiveAgent.run s).audit_log = s.audit_log ++ [{ agent := "PredictiveAgent" }] := by
  cases h : truthyDisruption s.input_data.disruption <;>
    simp [PredictiveAgent.run, h, logReasoning, recordDecision]

/-- The Predictive agent's disruption verdict depends only on the input
payload. -/
theorem predictive_detected (s : DisruptionState) :
    (PredictiveAgent.run s).disruption_detected = predDetect s.input_data := by
  cases h : truthyDisruption s.input_data.disruption <;>
    simp [PredictiveAgent.run, predDetect, h, logReasoning, recordDecision]

theorem predictive_rebooking (s : DisruptionState) :
    (PredictiveAgent.run s).rebooking_plan = s.rebooking_plan := by
  cases h : truthyDisruption s.input_data.disruption <;>
    simp [PredictiveAgent.run, h, logReasoning, recordDecision]

theorem predictive_finance (s : DisruptionState) :
    (PredictiveAgent.run s).finance_estimate = s.finance_estimate := by
  cases h : truthyDisruption s.input_data.disruption <;>
    simp [PredictiveAgent.run, h, logReasoning, recordDecision]

theorem predictive_crew (s : DisruptionState) :
    (PredictiveAgent.run s).crew_rotation = s.crew_rotation := by
  cases h : truthyDisruption s.input_data.disruption <;>
    simp [PredictiveAgent.run, h, logReasoning, recordDecision]

theorem predictive_sims (s : DisruptionState) :
    (PredictiveAgent.run s).simulation_results = s.simulation_results := by
  cases h : truthyDisruption s.input_data.disruption <;>
    simp [PredictiveAgent.run, h, logReasoning, recordDecision]

theorem predictive_final (s : DisruptionState) :
    (PredictiveAgent.run s).final_plan = s.final_plan := by
  cases h : truthyDisruption s.input_data.disruption <;>
    simp [PredictiveAgent.run, h, logReasoning, recordDecision]

theorem orchestrator_audit (s : DisruptionState) (o : Option OrchestratorOut) :
    (OrchestratorAgent.run s o).audit_log = s.audit_log ++ [{ agent := "OrchestratorAgent" }] := rfl

theorem orchestrator_detected (s : DisruptionState) (o : Option OrchestratorOut) :
    (OrchestratorAgent.run s o).disruption_detected = s.disruption_detected := rfl

theorem risk_audit (s : DisruptionState) (o : Option RiskOut) :
    (RiskAgent.run s o).audit_log = s.audit_log ++ [{ agent := "RiskAgent" }] := rfl

theorem risk_detected (s : DisruptionState) (o : Option RiskOut) :
    (RiskAgent.run s o).disruption_detected = s.disruption_detected := rfl

theorem rebooking_audit (s : DisruptionState) (ac : Bool) (ar : Option AmadeusOut)
    (o : Option RebookingOut) :
    (RebookingAgent.run s ac ar o).audit_log =
      s.audit_log ++ [{ agent := "RebookingAgent" }] := rfl

theorem rebooking_detected (s : DisruptionState) (ac : Bool) (ar : Option AmadeusOut)
    (o : Option RebookingOut) :
    (RebookingAgent.run s ac ar o).disruption_detected = s.disruption_detected := rfl

theorem finance_audit (s : DisruptionState) (oper : ℤ) (o : Option FinanceOut) :
    (FinanceAgent.run s oper o).audit_log = s.audit_log ++ [{ agent := "FinanceAgent" }] := rfl

theorem finance_detected (s : DisruptionState) (oper : ℤ) (o : Option FinanceOut) :
    (FinanceAgent.run s oper o).disruption_detected = s.disruption_detected := rfl

theorem crew_audit (s : DisruptionState) (o : Option CrewOut) :
    (CrewAgent.run s o).audit_log = s.audit_log ++ [{ agent := "CrewAgent" }] := rfl

theorem crew_detected (s : DisruptionState) (o : Option CrewOut) :
    (CrewAgent.run s o).disruption_detected = s.disruption_detected := rfl

theorem aggregator_audit (s : DisruptionState) :
    (AggregatorAgent.run s).audit_log = s.audit_log ++ [{ agent := "AggregatorAgent" }] := rfl

/-! ## Claim C1: terminal short-circuit -/

/-- C1: for every input on which the Predictive agent leaves
`disruption_detected = false`, the engine bypasses every remaining stage: the
output's `final_plan` is exactly the fixed monitoring plan
`{disruption_detected: false, recommended_action: "MONITOR", priority: "low",
message: "No action required"}` (every other key absent, i.e. `none`), the
audit log has exactly one entry, and the rebooking plan, finance estimate,
crew rotation and simulation results are all empty. -/
theorem monitor_shortcircuit (env : Env) (input : InputData)
    (h : predDetect input = false) :
    (runWorkflow env input).final_plan =
      { disruption_detected := some false
        recommended_action := some "MONITOR"
        priority := some "low"
        message := some "No action required" } ∧
    (runWorkflow env input).audit_log.length = 1 ∧
    (runWorkflow env input).rebooking_plan = some none ∧
    (runWorkflow env input).finance_estimate = some none ∧
    (runWorkflow env input).crew_rotation = some none ∧
    (runWorkflow env input).simulation_results = some [] := by
  have hd : (PredictiveAgent.run (recordProgress (recordProgress (createInitialState input)
      "Workflow" "started" "Starting disruption analysis...") "PredictiveAgent" "started"
      "Analyzing disruption signals...")).disruption_detected = false := by
    rw [predictive_detected, recordProgress_input, recordProgress_input]
    exact h
  unfold runWorkflow runCatch concreteBehaviors
  simp only [recordProgress_detected, hd, Bool.not_false, if_true, formatOutput,
    recordProgress_audit, predictive_audit, recordProgress_rebooking,
    predictive_rebooking, recordProgress_finance, predictive_finance,
    recordProgress_crew, predictive_crew, recordProgress_sims, predictive_sims]
  simp [createInitialState, monitorPlan]

/-- Closed witness for C1 at the empty input payload. -/
theorem monitor_shortcircuit_witness :
    predDetect {} = false ∧
    (runWorkflow {} {}).final_plan =
      { disruption_detected := some false
        recommended_action := some "MONITOR"
        priority := some "low"
        message := some "No action required" } ∧
    (runWorkflow {} {}).audit_log.length = 1 ∧
    (runWorkflow {} {}).rebooking_plan = some none ∧
    (runWorkflow {} {}).finance_estimate = some none ∧
    (runWorkflow {} {}).crew_rotation = some none ∧
    (runWorkflow {} {}).simulation_results = some [] :=
  ⟨by with_unfolding_all decide, monitor_shortcircuit {} {} (by with_unfolding_all decide)⟩

/-! ## Claim C6: audit-log ordering and length -/

/-- C6: the audit log lists exactly the invoked agents in stage order —
`Predictive` alone when no disruption is detected, otherwise `Predictive,
Orchestrator, {Risk, Rebooking in either gather order}, {Finance, Crew in
either gather order}, Aggregator` — one entry per agent (so length 1
resp. 7). -/
theorem audit_log_order (env : Env) (input : InputData) :
    (runWorkflow env input).audit_log.map (fun e => e.agent) =
      if predDetect input then
        ["PredictiveAgent", "OrchestratorAgent"] ++
        (if env.riskFirst then ["RiskAgent", "RebookingAgent"]
         else ["RebookingAgent", "RiskAgent"]) ++
        (if env.financeFirst then ["FinanceAgent", "CrewAgent"]
         else ["CrewAgent", "FinanceAgent"]) ++
        ["AggregatorAgent"]
      else ["PredictiveAgent"] := by
  have hd : (PredictiveAgent.run (recordProgress (recordProgress (createInitialState input)
      "Workflow" "started" "Starting disruption analysis...") "PredictiveAgent" "started"
      "Analyzing disruption signals...")).disruption_detected = predDetect input := by
    rw [predictive_detected, recordProgress_input, recordProgress_input]
    rfl
  unfold runWorkflow runCatch concreteBehaviors
  cases h : predDetect input with
  | false =>
    rw [h] at hd
    simp only [recordProgress_detected, hd, Bool.not_false, if_true, formatOutput,
      recordProgress_audit, predictive_audit]
    simp [createInitialState]
  | true =>
    rw [h] at hd
    cases hr : env.riskFirst <;> cases hf : env.financeFirst <;>
      · simp only [recordProgress_detected, hd, Bool.not_true]
        simp [hr, hf, formatOutput, recordProgress_audit, predictive_audit,
          orchestrator_audit, risk_audit, rebooking_audit, finance_audit,
          crew_audit, aggregator_audit, createInitialState]

/-! ## Claim C7: the engine never propagates an agent exception -/

/-- C7: for every choice of stage behaviours — each stage may either return an
updated state or surface an exception message together with the state the
engine variable refers to at that moment — and for every input, the engine
returns a well-formed envelope: either the complete formatted output, or the
error envelope `{error: message, disruption_detected: <value known at failure
time>, audit_log: <partial log>, final_plan: {error: "Workflow execution
failed"}}` with no other key present.  No exception ever propagates (the
function is total by construction, mirroring the single `try/except` around
the body of `DisruptionWorkflowADK.run`). -/
theorem engine_error_envelope (b : Behaviors) (riskFirst financeFirst : Bool)
    (input : InputData) :
    (∃ s : DisruptionState, runCatch b riskFirst financeFirst input = formatOutput s) ∨
    (∃ (m : String) (s : DisruptionState), runCatch b riskFirst financeFirst input =
      { error := some m
        disruption_detected := s.disruption_detected
        audit_log := s.audit_log
        final_plan := { error := some "Workflow execution failed" } }) := by
  unfold runCatch
  dsimp only
  repeat' split
  all_goals first
    | (left; exact ⟨_, rfl⟩)
    | (right; exact ⟨_, _, rfl⟩)

/-! ## Claim C2: scenario A (readiness scores) -/

/-- The scenario-A payload: `weatherScore=0.8, aircraftScore=0.6,
crewScore=0.5`, no ground-truth disruption record. -/
def scenarioAInput : InputData :=
  { stats := some { weatherScore := some (8/10), aircraftScore := some (6/10),
                    crewScore := some (1/2) } }

/-- C2 counterexample: on the scenario-A payload the Predictive agent reports
no disruption and risk probability exactly 0, not `true` with probability
≥ 0.6 as claimed: `compute_predictive_signals` scores alerts, flight
readiness flags, crew/aircraft panels and count statistics, none of which are
present in the input the tool assembles from the three readiness scores. -/
theorem scenario_a_counterexample :
    (PredictiveAgent.run (createInitialState scenarioAInput)).disruption_detected = false ∧
    (PredictiveAgent.run (createInitialState scenarioAInput)).risk_assessment.risk_probability =
      some 0 := by
  with_unfolding_all decide

/-- C2 amended: the heuristic ignores the readiness scores entirely — the
predictive tool's result is independent of the three score arguments — and on
the scenario-A payload it yields `disruption_detected = false` with
`risk_probability = 0`. -/
theorem scenario_a_amended :
    (PredictiveAgent.run (createInitialState scenarioAInput)).disruption_detected = false ∧
    (PredictiveAgent.run (createInitialState scenarioAInput)).risk_assessment.risk_probability =
      some 0 ∧
    ∀ (airport carrier : String) (w1 a1 c1 w2 a2 c2 : ℚ),
      predictiveSignalTool airport carrier w1 a1 c1 =
        predictiveSignalTool airport carrier w2 a2 c2 := by
  refine ⟨by with_unfolding_all decide, by with_unfolding_all decide, ?_⟩
  intro airport carrier w1 a1 c1 w2 a2 c2
  rfl

/-! ## Claim C3: final-plan priority ladder -/

/-- Environment for the C3 counterexample: the reasoning backend answers the
Risk prompt with a fully-populated, schema-conformant response carrying
likelihood 0.3 — all five schema fields are present and non-null, so every
unconditional read in the source succeeds and the run completes normally. -/
def c3Env : Env :=
  { riskLLM := some
      { likelihood := 3/10
        duration_minutes := 240
        pax_impact := "medium"
        regulatory_risk := some "Monitor for compensation thresholds"
        reasoning := some "Backend risk assessment" } }

/-- Input for the C3 counterexample: a confirmed (ground-truth) disruption,
so the run is disrupted. -/
def c3Input : InputData := { disruption := some [("type", "cancellation")] }

set_option maxRecDepth 8000 in
/-- C3 counterexample: a disrupted run whose `risk_assessment.likelihood` is
0.3 ends with `final_plan.priority = "medium"`, while the Orchestrator
severity ladder maps 0.3 to `"low"`: the Aggregator's ladder has no low
bucket, so it is not the same four-bucket ladder. -/
theorem priority_ladder_counterexample :
    (runWorkflow c3Env c3Input).disruption_detected = true ∧
    ((runWorkflow c3Env c3Input).risk_assessment.map (fun r => r.likelihood)) =
      some (some (3/10)) ∧
    (runWorkflow c3Env c3Input).final_plan.priority = some "medium" ∧
    OrchestratorAgent.calculateSeverity (3/10) = "low" := by
  with_unfolding_all decide

/-- C3 amended: the Aggregator sets `final_plan.priority` from
`risk_assessment.likelihood` via a three-bucket ladder — `>0.8 → critical,
>0.6 → high, otherwise medium`; it agrees with the Orchestrator's severity
ladder only on the top two buckets and never produces `"low"`. -/
theorem priority_ladder_amended (s : DisruptionState) :
    (AggregatorAgent.run s).final_plan.priority =
      some (if s.risk_assessment.likelihood.getD 0 > 8/10 then "critical"
            else if s.risk_assessment.likelihood.getD 0 > 6/10 then "high"
            else "medium") ∧
    (AggregatorAgent.run s).final_plan.priority ≠ some "low" := by
  have hp : (AggregatorAgent.run s).final_plan.priority =
      some (if s.risk_assessment.likelihood.getD 0 > 8/10 then "critical"
            else if s.risk_assessment.likelihood.getD 0 > 6/10 then "high"
            else "medium") := rfl
  refine ⟨hp, ?_⟩
  rw [hp]
  split_ifs <;> simp

/-! ## Claim C4: ground-truth disruption override -/

/-- C4: whenever the input payload carries a present, non-empty ground-truth
disruption record, the Predictive agent reports `disruption_detected = true`,
writes exactly the two-key risk dict `{risk_probability: 1.0, reasoning:
"Confirmed disruption: <type>"}` and an empty `signal_breakdown`, regardless
of the readiness scores (the heuristic tool is never consulted: the output is
determined by the disruption record alone). -/
theorem ground_truth_override (s : DisruptionState)
    (h : truthyDisruption s.input_data.disruption = true) :
    (PredictiveAgent.run s).disruption_detected = true ∧
    (PredictiveAgent.run s).risk_assessment =
      { risk_probability := some 1
        reasoning := some ("Confirmed disruption: " ++
          (((s.input_data.disruption.getD []).lookup "type").getD "disruption")) } ∧
    (PredictiveAgent.run s).signal_breakdown = [] := by
  unfold PredictiveAgent.run
  simp [h, logReasoning]

/-- Closed witness for C4: a cancellation record with low readiness scores. -/
def c4Input : InputData :=
  { stats := some { weatherScore := some (1/10), aircraftScore := some (1/10),
                    crewScore := some (1/10) }
    disruption := some [("type", "cancellation")] }

/-- Closed witness for C4. -/
theorem ground_truth_override_witness :
    truthyDisruption (createInitialState c4Input).input_data.disruption = true ∧
    ((PredictiveAgent.run (createInitialState c4Input)).disruption_detected = true ∧
     (PredictiveAgent.run (createInitialState c4Input)).risk_assessment =
       { risk_probability := some 1
         reasoning := some ("Confirmed disruption: " ++
           ((((createInitialState c4Input).input_data.disruption.getD []).lookup
             "type").getD "disruption")) } ∧
     (PredictiveAgent.run (createInitialState c4Input)).signal_breakdown = []) :=
  ⟨by with_unfolding_all decide,
   ground_truth_override (createInitialState c4Input) (by with_unfolding_all decide)⟩

/-! ## Claim C5: finance total invariant -/

/-- State for the C5 counterexample: a rebooking plan with 100 passengers and
hotel required, a risk duration of 200 minutes. -/
def c5State : DisruptionState :=
  { rebooking_plan := some
      { flight_id := "CX888", strategy := "next_day_alternate", hotel_required := true,
        vip_priority := false, estimated_pax := 100, vip_count := 10, delay_minutes := 200,
        actions := [], data_source := "synthetic", reasoning := "" }
    risk_assessment := { duration_minutes := some 200 } }

/-- A schema-conformant backend response that overrides only `total_usd`. -/
def c5Override : FinanceOut := { total_usd := some 1 }

set_option maxRecDepth 2000 in
/-- C5 counterexample: with 100 pax, 200 min delay, hotel required and
operational overhead 10000 (inside the `randint(10000, 30000)` range) the
tool computes 40000 + 15000 + 10000 = 65000, but a non-null backend override
of `total_usd` alone leaves the produced estimate with `total_usd = 1` while
its parts still sum to 65000: the equality does not survive reasoning-backend
overrides, contrary to the claim's "including any non-null reasoning-backend
overrides". -/
theorem finance_total_counterexample :
    ((FinanceAgent.run c5State 10000 (some c5Override)).finance_estimate.map
      (fun e => e.total_usd)) = some 1 ∧
    ((FinanceAgent.run c5State 10000 (some c5Override)).finance_estimate.map
      (fun e => e.compensation_usd + e.hotel_meals_usd + e.operational_usd)) =
      some 65000 := by
  refine ⟨?_, ?_⟩ <;> with_unfolding_all rfl

/-- The reasoning-backend response (if any) overrides none of the four cost
fields. -/
def noCostOverride (o : Option FinanceOut) : Prop :=
  ∀ f, o = some f → f.compensation_usd = none ∧ f.hotel_meals_usd = none ∧
    f.operational_usd = none ∧ f.total_usd = none

/-- C5 amended: for every finance estimate the workflow produces,
`total_usd = compensation_usd + hotel_meals_usd + operational_usd` exactly,
provided the reasoning backend does not override any of the four cost fields
(in particular whenever it returns nothing and the deterministic tool
estimate is used verbatim). -/
theorem finance_total_invariant (s : DisruptionState) (oper : ℤ)
    (llm : Option FinanceOut) (h : noCostOverride llm) :
    ∀ e, (FinanceAgent.run s oper llm).finance_estimate = some e →
      e.total_usd = e.compensation_usd + e.hotel_meals_usd + e.operational_usd := by
  intro e he
  cases llm with
  | none =>
    have hrun : (FinanceAgent.run s oper none).finance_estimate =
        some (FinanceAgent.toolEstimate s oper) := rfl
    rw [hrun] at he
    obtain rfl := (Option.some.injEq _ _ ▸ he).symm
    rfl
  | some f =>
    obtain ⟨h1, h2, h3, h4⟩ := h f rfl
    have hrun : (FinanceAgent.run s oper (some f)).finance_estimate =
        some ((FinanceAgent.toolEstimate s oper).update f) := rfl
    rw [hrun] at he
    obtain rfl := (Option.some.injEq _ _ ▸ he).symm
    simp [FinanceEstimate.update, h1, h2, h3, h4, FinanceAgent.toolEstimate, financeTool]

/-- The tool estimate used by the C5 witness. -/
def c5WitnessEstimate : FinanceEstimate := FinanceAgent.toolEstimate {} 12345

/-- Closed witness for C5 (amended): backend returning nothing. -/
theorem finance_total_invariant_witness :
    noCostOverride none ∧
    c5WitnessEstimate.total_usd = c5WitnessEstimate.compensation_usd +
      c5WitnessEstimate.hotel_meals_usd + c5WitnessEstimate.operational_usd := by
  have hno : noCostOverride none := by intro f hf; cases hf
  exact ⟨hno, finance_total_invariant {} 12345 none hno c5WitnessEstimate rfl⟩

/-! ## Claim C8: scenario rendering -/

/-- C8: the Aggregator maps each what-if template (or, when the template list
is empty, each of the two fixed defaults) to one rendered scenario whose
`agent_decisions` are exactly the decision-log entries tagged with that
scenario's key or the `"global"` sentinel; in particular a rendered scenario
has non-empty `agent_decisions` whenever at least one decision carries its
key or the global sentinel. -/
theorem scenario_rendering (s : DisruptionState) :
    (AggregatorAgent.renderScenarios s).length =
      (if s.what_if_templates.isEmpty then AggregatorAgent.defaultTemplates
       else s.what_if_templates).length ∧
    (∀ i (hi : i < (AggregatorAgent.renderScenarios s).length)
       (hj : i < (if s.what_if_templates.isEmpty then AggregatorAgent.defaultTemplates
                  else s.what_if_templates).length),
      ((AggregatorAgent.renderScenarios s).get ⟨i, hi⟩).scenario =
        scenarioKeyOf ((if s.what_if_templates.isEmpty then AggregatorAgent.defaultTemplates
          else s.what_if_templates).get ⟨i, hj⟩) ∧
      ((AggregatorAgent.renderScenarios s).get ⟨i, hi⟩).agent_decisions =
        s.decision_log.filter (fun d => d.scenarios.contains "global" ||
          d.scenarios.contains (scenarioKeyOf
            ((if s.what_if_templates.isEmpty then AggregatorAgent.defaultTemplates
              else s.what_if_templates).get ⟨i, hj⟩)))) ∧
    (∀ r, r ∈ AggregatorAgent.renderScenarios s →
      (∃ d, d ∈ s.decision_log ∧ ("global" ∈ d.scenarios ∨ r.scenario ∈ d.scenarios)) →
      r.agent_decisions ≠ []) := by
  refine ⟨by simp [AggregatorAgent.renderScenarios], ?_, ?_⟩
  · intro i hi hj
    constructor <;> simp [AggregatorAgent.renderScenarios]
  · intro r hr hd
    obtain ⟨t, ht, rfl⟩ := List.mem_map.mp (by simpa [AggregatorAgent.renderScenarios] using hr)
    obtain ⟨d, hdl, hdtag⟩ := hd
    dsimp only at hdtag ⊢
    refine List.ne_nil_of_mem (List.mem_filter.mpr ⟨hdl, ?_⟩)
    rcases hdtag with hg | hk
    · simp [hg]
    · simp [hk]

/-- The single globally tagged decision used by the C8 witness. -/
def c8Decision : DecisionEntry :=
  { agent := "PredictiveAgent"
    decision := "Calculated predictive disruption risk"
    category := "prediction"
    scenarios := ["global"] }

/-- State for the C8 witness: one globally tagged decision, no templates. -/
def c8State : DisruptionState :=
  { decision_log := [c8Decision] }

/-- Closed witness for C8. -/
theorem scenario_rendering_witness :
    (AggregatorAgent.renderScenarios c8State).length =
      (if c8State.what_if_templates.isEmpty then AggregatorAgent.defaultTemplates
       else c8State.what_if_templates).length ∧
    ∀ r, r ∈ AggregatorAgent.renderScenarios c8State → r.agent_decisions ≠ [] := by
  refine ⟨(scenario_rendering c8State).1, ?_⟩
  intro r hr
  refine (scenario_rendering c8State).2.2 r hr ⟨c8Decision, ?_, ?_⟩
  · with_unfolding_all decide
  · left; with_unfolding_all decide

/-! ## Claim C9: the Predictive agent's decision entry -/

/-- Input for the C9 counterexample: a ground-truth disruption record. -/
def c9Input : InputData := { disruption := some [("type", "cancellation")] }

/-- C9 counterexample: on the ground-truth-disruption path the Predictive
agent returns right after `log_reasoning` and records no decision at all —
the decision log stays empty, not "exactly one entry". -/
theorem predictive_decision_counterexample :
    (PredictiveAgent.run (createInitialState c9Input)).decision_log = [] := by
  with_unfolding_all decide

/-- C9 amended: on the heuristic path the Predictive agent appends exactly
one decision entry, tagged `{delay_3hr, crew_unavailable}` when a disruption
is detected and `{global}` otherwise; on the ground-truth-disruption path it
appends none. -/
theorem predictive_decision_amended (s : DisruptionState) :
    (PredictiveAgent.run s).decision_log =
      s.decision_log ++
        (if truthyDisruption s.input_data.disruption then []
         else [{ agent := "PredictiveAgent"
                 decision := "Calculated predictive disruption risk"
                 category := "prediction"
                 scenarios := if predDetect s.input_data then ["delay_3hr", "crew_unavailable"]
                   else ["global"] }]) := by
  cases h : truthyDisruption s.input_data.disruption <;>
    simp [PredictiveAgent.run, h, logReasoning, recordDecision, predDetect]

/-! ## Claim C10: finance distance fixed to "medium" -/

/-- C10: `FinanceAgent.run` invokes the finance tool with `flight_distance`
fixed to the literal `"medium"`, so whenever the risk duration is at least
180 minutes the tool-computed compensation is `estimated_pax × 400` (the
250/"short" and 600/"long" rates are unreachable through the workflow), and
with no reasoning-backend override the produced estimate is exactly this tool
estimate. -/
theorem finance_distance_fixed (s : DisruptionState) (oper : ℤ)
    (h : 180 ≤ FinanceAgent.delayMinutes s) :
    (FinanceAgent.toolEstimate s oper).compensation_usd = FinanceAgent.paxCount s * 400 ∧
    (FinanceAgent.run s oper none).finance_estimate =
      some (FinanceAgent.toolEstimate s oper) := by
  refine ⟨?_, rfl⟩
  simp [FinanceAgent.toolEstimate, financeTool, ge_iff_le, h]

/-- State for the C10 witness: 150 affected passengers, 200-minute duration. -/
def c10State : DisruptionState :=
  { rebooking_plan := some
      { flight_id := "CX888", strategy := "next_day_alternate", hotel_required := true,
        vip_priority := false, estimated_pax := 150, vip_count := 15, delay_minutes := 200,
        actions := [], data_source := "synthetic", reasoning := "" }
    risk_assessment := { duration_minutes := some 200 } }

/-- Closed witness for C10. -/
theorem finance_distance_fixed_witness :
    180 ≤ FinanceAgent.delayMinutes c10State ∧
    ((FinanceAgent.toolEstimate c10State 20000).compensation_usd =
       FinanceAgent.paxCount c10State * 400 ∧
     (FinanceAgent.run c10State 20000 none).finance_estimate =
       some (FinanceAgent.toolEstimate c10State 20000)) :=
  ⟨by with_unfolding_all decide,
   finance_distance_fixed c10State 20000 (by with_unfolding_all decide)⟩

end RunwayOps
